import Mathlib

/-!
# Verification of the credit reporting/ledger backend

A shallow embedding, in Lean 4, of the core logic of the credit backend:
the relational data model (users, credits, payments, dictionary, plans),
the query/aggregation functions of `db_operations/crud.py`, and the three
endpoint handlers of `main.py` (`get_user_credits`, `plans_insert`,
`year_performance`).

Modelling conventions:
* The relational store is a structure of lists of rows (`DB`); SQL queries
  become list filters/sums translated clause by clause from the SQLAlchemy
  expressions in `crud.py`.
* Calendar dates are a `(year, month, day)` structure; `extract("year", ·)`
  and `extract("month", ·)` become field projections, and Python
  `date` subtraction/comparison becomes arithmetic on the civil day number
  `Date.toDays` (the standard days-from-civil computation, which is what
  `datetime.date.toordinal` is up to a constant offset).
* `DECIMAL` columns and Python float arithmetic are modelled over `ℚ`;
  Python `round(x, 2)` becomes `round2` and the f-string percent rendering
  becomes `fmtPercent` (an exact decimal renderer is immaterial to the
  properties proved, which compare both sides through the same renderer).
* An endpoint handler is a function from the store (plus the ambient
  `today` where the code calls `date.today()`) to a pair of the store
  after the request and an `Except HTTPError` result.  The session of
  `get_db` commits only where the code calls `db.commit()`; a raised
  `HTTPException` closes the session with all staged-but-uncommitted rows
  discarded, so on the error path the returned store is the input store.
* Rows of an uploaded plans file are modelled after the pandas cell
  values the loop in `plans_insert` actually consumes: `period` as the
  result of `pd.to_datetime(·, dayfirst=True).date()` (`none` = parse
  failure), `sum` as `none` when `pd.isnull` holds, and `category_id` as
  the result of `int(·)` (`none` = `ValueError`).  File sniffing and the
  required-column check happen before the loop and are independent of the
  claims treated here.
-/

namespace CreditApp

/-- A calendar date, as stored in the `Date` columns. -/
structure Date where
  year : Int
  month : Int
  day : Int
deriving DecidableEq, Repr

/-- Civil day number of a date (days since 1970-01-01, the standard
days-from-civil algorithm).  Python `date` subtraction `(a - b).days`
equals `a.toDays - b.toDays`, and `a <= b` iff `a.toDays <= b.toDays`. -/
def Date.toDays (d : Date) : Int :=
  let y : Int := if d.month ≤ 2 then d.year - 1 else d.year
  let era : Int := Int.tdiv (if 0 ≤ y then y else y - 399) 400
  let yoe : Int := y - era * 400
  let mp : Int := if 2 < d.month then d.month - 3 else d.month + 9
  let doy : Int := Int.tdiv (153 * mp + 2) 5 + d.day - 1
  let doe : Int := yoe * 365 + Int.tdiv yoe 4 - Int.tdiv yoe 100 + doy
  era * 146097 + doe - 719468

/-- ISO rendering of a date, as Python `f"{period}"` produces. -/
def Date.toIso (d : Date) : String :=
  let pad4 : Int → String := fun n =>
    let s := toString n
    if s.length < 4 then String.mk (List.replicate (4 - s.length) '0') ++ s else s
  let pad2 : Int → String := fun n =>
    let s := toString n
    if s.length < 2 then "0" ++ s else s
  pad4 d.year ++ "-" ++ pad2 d.month ++ "-" ++ pad2 d.day

/-- Row of the `credits` table (`models/credits.py`). -/
structure Credit where
  id : Int
  user_id : Int
  issuance_date : Date
  return_date : Date
  actual_return_date : Option Date
  body : Int
  percent : ℚ
deriving DecidableEq, Repr

/-- Row of the `payments` table (`models/payments.py`). -/
structure Payment where
  id : Int
  credit_id : Int
  payment_date : Date
  type_id : Int
  sum : ℚ
deriving DecidableEq, Repr

/-- Row of the `dictionary` table (`models/dictionary.py`). -/
structure DictEntry where
  id : Int
  name : String
deriving DecidableEq, Repr

/-- Row of the `plans` table (`models/plans.py`); the autoincrement `id`
plays no role in any query and is omitted. -/
structure Plan where
  period : Date
  sum : Int
  category_id : Int
deriving DecidableEq, Repr

/-- The relational store: the four data tables plus the lookup dictionary. -/
structure DB where
  credits : List Credit
  payments : List Payment
  dictionary : List DictEntry
  plans : List Plan
deriving DecidableEq, Repr

/-! ## `db_operations/crud.py` -/

/-- `get_credits_by_user_id`: all credits of a user. -/
def get_credits_by_user_id (db : DB) (user_id : Int) : List Credit :=
  db.credits.filter (fun c => c.user_id == user_id)

/-- `get_total_payment_by_type`: total payment amount for a credit and a
payment-type name.  The first dictionary row named `type_name` supplies the
type id; a missing name, or an empty sum (`NULL` scalar), yields `0` via
the `or 0` fallbacks. -/
def get_total_payment_by_type (db : DB) (credit_id : Int) (type_name : String) : ℚ :=
  match (db.dictionary.filter (fun d => d.name == type_name)).head? with
  | none => 0
  | some d =>
      ((db.payments.filter
          (fun p => p.credit_id == credit_id && p.type_id == d.id)).map
        (fun p => p.sum)).sum

/-- `get_total_payments`: total payment amount for a credit (0 if none). -/
def get_total_payments (db : DB) (credit_id : Int) : ℚ :=
  ((db.payments.filter (fun p => p.credit_id == credit_id)).map
    (fun p => p.sum)).sum

/-- `calculate_overdue_days`: `max((date.today() - return_date).days, 0)`,
with both dates given by their civil day numbers. -/
def calculate_overdue_days (today return_date : Date) : Int :=
  max (today.toDays - return_date.toDays) 0

/-- `get_existing_plan`: first plan with the given period and category. -/
def get_existing_plan (db : DB) (period : Date) (category_id : Int) : Option Plan :=
  (db.plans.filter
    (fun p => p.period == period && p.category_id == category_id)).head?

/-- `create_plan` builds the row staged by `db.add` in `plans_insert`. -/
def create_plan (period : Date) (sum_ : Int) (category_id : Int) : Plan :=
  { period := period, sum := sum_, category_id := category_id }

/-- `count_issuances_in_month`: credits issued in `(year, month)`. -/
def count_issuances_in_month (db : DB) (year month : Int) : Int :=
  Int.ofNat (db.credits.filter
    (fun c => c.issuance_date.year == year && c.issuance_date.month == month)).length

/-- `get_plan_sum_issuance`: sum of `Plans.sum` joined to `Dictionary`
(inner join on `category_id = dictionary.id`), period in `(year, month)`,
name `"issuance"`; `0` via `or 0` when the join is empty. -/
def get_plan_sum_issuance (db : DB) (year month : Int) : Int :=
  ((db.plans.filter (fun p =>
      p.period.year == year && p.period.month == month &&
        db.dictionary.any (fun d => d.id == p.category_id && d.name == "issuance"))).map
    (fun p => p.sum)).sum

/-- `get_issuances_for_month`: sum of `Credits.body` for credits issued in
`(year, month)`; `0` when none. -/
def get_issuances_for_month (db : DB) (year month : Int) : Int :=
  ((db.credits.filter
      (fun c => c.issuance_date.year == year && c.issuance_date.month == month)).map
    (fun c => c.body)).sum

/-- `count_payments_in_month`: payments (joined to `Credits` on
`credit_id = credits.id`) dated in `(year, month)`. -/
def count_payments_in_month (db : DB) (year month : Int) : Int :=
  Int.ofNat (db.payments.filter (fun p =>
    p.payment_date.year == year && p.payment_date.month == month &&
      db.credits.any (fun c => c.id == p.credit_id))).length

/-- `get_plan_sum_for_payments`: as `get_plan_sum_issuance` with dictionary
name `"collection"`. -/
def get_plan_sum_for_payments (db : DB) (year month : Int) : Int :=
  ((db.plans.filter (fun p =>
      p.period.year == year && p.period.month == month &&
        db.dictionary.any (fun d => d.id == p.category_id && d.name == "collection"))).map
    (fun p => p.sum)).sum

/-- `get_sum_payments_for_month`: sum of `Payments.sum` (joined to
`Credits`) dated in `(year, month)`; `0` when none. -/
def get_sum_payments_for_month (db : DB) (year month : Int) : ℚ :=
  ((db.payments.filter (fun p =>
      p.payment_date.year == year && p.payment_date.month == month &&
        db.credits.any (fun c => c.id == p.credit_id))).map
    (fun p => p.sum)).sum

/-! ## `plans_insert` (`main.py`, lines 99–173) -/

/-- A raised `HTTPException`: status code and detail message. -/
structure HTTPError where
  status : Nat
  detail : String
deriving DecidableEq, Repr

/-- Python `int(·)` on a numeric value: truncation toward zero. -/
def int_of (q : ℚ) : Int :=
  if 0 ≤ q then ⌊q⌋ else ⌈q⌉

/-- One row of the uploaded plans file, as the loop body consumes it:
`period` is the outcome of `pd.to_datetime(row["period"], dayfirst=True)`
(`none` = the parse raised), `sum` is `none` when `pd.isnull(row["sum"])`,
and `category_id` is the outcome of `int(row["category_id"])` (`none` =
`ValueError`). -/
structure Row where
  period : Option Date
  sum : Option ℚ
  category_id : Option Int
deriving DecidableEq, Repr

/-- Detail of the row-level errors raised by `plans_insert`, in source
order.  `idx` is the 0-based `iterrows` index, so messages show `idx + 1`. -/
def invalidDateErr (idx : Nat) : HTTPError :=
  ⟨400, "Invalid date format in row " ++ toString (idx + 1)⟩

/-- Error for a period that is not the first day of its month. -/
def notFirstDayErr (idx : Nat) : HTTPError :=
  ⟨400, "Date in row " ++ toString (idx + 1) ++ " must be the first day of the month"⟩

/-- Error for a null `sum` cell. -/
def emptySumErr (idx : Nat) : HTTPError :=
  ⟨400, "The \x27sum\x27 field in row " ++ toString (idx + 1) ++ " is empty"⟩

/-- Error for a `category_id` cell that `int(·)` rejects. -/
def invalidCategoryErr (idx : Nat) : HTTPError :=
  ⟨400, "Invalid category_id in row " ++ toString (idx + 1)⟩

/-- Error for a `(period, category_id)` pair already present in the store. -/
def duplicatePlanErr (period : Date) (category_id : Int) (idx : Nat) : HTTPError :=
  ⟨400, "A plan for period " ++ period.toIso ++ " and category " ++
    toString category_id ++ " already exists (row " ++ toString (idx + 1) ++ ")"⟩

/-- The validation cascade of one iteration of the `plans_insert` loop, in
source order: date parse, first-of-month, non-null sum, integer category,
duplicate check against the store `db` (the session has `autoflush=False`,
so staged-but-uncommitted rows are invisible to `get_existing_plan`).
Returns the error raised, or `none` when the row passes all five checks. -/
def rowError (db : DB) (idx : Nat) (row : Row) : Option HTTPError :=
  match row.period with
  | none => some (invalidDateErr idx)
  | some period =>
    if period.day ≠ 1 then some (notFirstDayErr idx)
    else
      match row.sum with
      | none => some (emptySumErr idx)
      | some _ =>
        match row.category_id with
        | none => some (invalidCategoryErr idx)
        | some category_id =>
          if (get_existing_plan db period category_id).isSome then
            some (duplicatePlanErr period category_id idx)
          else none

/-- The plan staged for a row by `create_plan(db, period, int(row["sum"]),
category_id)`; `none` when some cell is unusable. -/
def rowPlan (row : Row) : Option Plan :=
  match row.period, row.sum, row.category_id with
  | some p, some s, some c => some (create_plan p (int_of s) c)
  | _, _, _ => none

/-- The `for index, row in df.iterrows()` loop of `plans_insert`: validate
rows in order starting at index `idx`, accumulating staged plans; the
first failure raises, discarding the staged rows. -/
def insertRows (db : DB) (idx : Nat) (staged : List Plan) :
    List Row → Except HTTPError (List Plan)
  | [] => .ok staged
  | row :: rest =>
    match row.period with
    | none => .error (invalidDateErr idx)
    | some period =>
      if period.day ≠ 1 then .error (notFirstDayErr idx)
      else
        match row.sum with
        | none => .error (emptySumErr idx)
        | some s =>
          match row.category_id with
          | none => .error (invalidCategoryErr idx)
          | some category_id =>
            if (get_existing_plan db period category_id).isSome then
              .error (duplicatePlanErr period category_id idx)
            else
              insertRows db (idx + 1)
                (staged ++ [create_plan period (int_of s) category_id]) rest

/-- `plans_insert`: run the validation/staging loop over the batch; on
success `db.commit()` publishes the staged rows and the success message is
returned; on failure the raised error closes the session and nothing is
persisted. -/
def plans_insert (db : DB) (rows : List Row) : DB × Except HTTPError String :=
  match insertRows db 0 [] rows with
  | .error e => (db, .error e)
  | .ok staged =>
      ({ db with plans := db.plans ++ staged },
        .ok "Plans were successfully inserted into the database.")

/-! ## JSON-like records

The handlers return Python dicts/lists; a dict is modelled as an
association list in insertion order, so "the record has no such key" is
`List.lookup _ = none`. -/

/-- A JSON-able value appearing in a handler response. -/
inductive Val where
  | vI : Int → Val
  | vQ : ℚ → Val
  | vS : String → Val
  | vD : Date → Val
  | vB : Bool → Val
deriving DecidableEq, Repr

/-- A Python dict in insertion order. -/
abbrev Rec := List (String × Val)

/-! ## `year_performance` (`main.py`, lines 176–266) -/

/-- Python `round(x, 2)` over the rationals standing in for floats. -/
def round2 (x : ℚ) : ℚ := (round (x * 100) : ℤ) / 100

/-- The f-string percent rendering `f"{x}%"`. -/
def fmtPercent (x : ℚ) : String := toString x ++ "%"

/-- The percent pattern repeated throughout `year_performance`:
`f"{round((num / den * 100) if den else 0, 2)}%"` — the ratio is taken
only when the denominator is truthy (nonzero), else the literal `0`. -/
def pctStr (num den : ℚ) : String :=
  fmtPercent (round2 (if den ≠ 0 then num / den * 100 else 0))

/-- The per-month dict built inside the `for month in range(1, 13)` loop,
before the share-of-year keys are added. -/
structure MonthItem where
  month : Int
  year : Int
  issuances : Int
  plan_sum_issuances : Int
  sum_issuances_for_month : Int
  issuance_plan_percent : String
  payments_in_month : Int
  plan_sum_for_payments : Int
  sum_payments_for_month : ℚ
  payment_plan_performance_percent : String
deriving DecidableEq, Repr

/-- One iteration of the month loop of `year_performance`. -/
def monthItem (db : DB) (year month : Int) : MonthItem :=
  let issuances := count_issuances_in_month db year month
  let plan_sum_issuances := get_plan_sum_issuance db year month
  let sum_issuances_for_month := get_issuances_for_month db year month
  let payments_in_month := count_payments_in_month db year month
  let plan_sum_for_payments := get_plan_sum_for_payments db year month
  let sum_payments_for_month := get_sum_payments_for_month db year month
  { month := month
    year := year
    issuances := issuances
    plan_sum_issuances := plan_sum_issuances
    sum_issuances_for_month := sum_issuances_for_month
    issuance_plan_percent :=
      pctStr (sum_issuances_for_month : ℚ) (plan_sum_issuances : ℚ)
    payments_in_month := payments_in_month
    plan_sum_for_payments := plan_sum_for_payments
    sum_payments_for_month := sum_payments_for_month
    payment_plan_performance_percent :=
      pctStr sum_payments_for_month (plan_sum_for_payments : ℚ) }

/-- The final month record: the loop dict in insertion order, with the two
share-of-year keys appended by the `for item in results` loop. -/
def monthRecOf (it : MonthItem) (total_sum_issuances : Int)
    (total_sum_payments_for_month : ℚ) : Rec :=
  [("month", .vI it.month),
   ("year", .vI it.year),
   ("issuances", .vI it.issuances),
   ("plan_sum_issuances", .vI it.plan_sum_issuances),
   ("sum_issuances_for_month", .vI it.sum_issuances_for_month),
   ("issuance_plan_percent", .vS it.issuance_plan_percent),
   ("payments_in_month", .vI it.payments_in_month),
   ("plan_sum_for_payments", .vI it.plan_sum_for_payments),
   ("sum_payments_for_month", .vQ it.sum_payments_for_month),
   ("payment_plan_performance_percent", .vS it.payment_plan_performance_percent),
   ("sum_month_issuance_percent",
     .vS (pctStr (it.sum_issuances_for_month : ℚ) (total_sum_issuances : ℚ))),
   ("sum_month_payment_percent",
     .vS (pctStr it.sum_payments_for_month total_sum_payments_for_month))]

/-- The summary dict appended after the 12 month records: the year totals
(each a sum over the month items) and their percent renderings; note it
carries no `"month"` key. -/
def yearSummaryRec (year : Int) (items : List MonthItem) : Rec :=
  let total_sum_issuances := (items.map MonthItem.sum_issuances_for_month).sum
  let plan_sum_issuances := (items.map MonthItem.plan_sum_issuances).sum
  let total_plan_sum_for_payments := (items.map MonthItem.plan_sum_for_payments).sum
  let total_sum_payments_for_month := (items.map MonthItem.sum_payments_for_month).sum
  [("total_issuances", .vI (items.map MonthItem.issuances).sum),
   ("year", .vI year),
   ("plan_sum_issuances", .vI plan_sum_issuances),
   ("total_sum_issuances_for_month", .vI total_sum_issuances),
   ("total_issuance_plan_percent",
     .vS (pctStr (total_sum_issuances : ℚ) (plan_sum_issuances : ℚ))),
   ("total_payments_in_month", .vI (items.map MonthItem.payments_in_month).sum),
   ("total_plan_sum_for_payments", .vI total_plan_sum_for_payments),
   ("total_sum_payments_for_month", .vQ total_sum_payments_for_month),
   ("total_payment_plan_performance_percent",
     .vS (pctStr total_sum_payments_for_month (total_plan_sum_for_payments : ℚ)))]

/-- `year_performance`: range-check the year, compute the 12 month records
(months 1..12 in order), derive the year totals from them, append the
share-of-year keys to each month record, and append the summary record. -/
def year_performance (today : Date) (db : DB) (year : Int) :
    DB × Except HTTPError (List Rec) :=
  if year < 2000 ∨ year > today.year + 1 then
    (db, .error ⟨400, "Invalid year: " ++ toString year ++
      ". Must be between 2000 and " ++ toString (today.year + 1) ++ "."⟩)
  else
    let items := (List.range 12).map (fun i => monthItem db year (Int.ofNat i + 1))
    let total_sum_issuances := (items.map MonthItem.sum_issuances_for_month).sum
    let total_sum_payments_for_month := (items.map MonthItem.sum_payments_for_month).sum
    let monthRecs :=
      items.map (fun it => monthRecOf it total_sum_issuances total_sum_payments_for_month)
    (db, .ok (monthRecs ++ [yearSummaryRec year items]))

/-! ## `get_user_credits` (`main.py`, lines 46–96) -/

/-- The per-credit dict of `get_user_credits`: the closed branch when
`actual_return_date` is set, the open branch otherwise. -/
def credit_record (today : Date) (db : DB) (c : Credit) : Rec :=
  let base : Rec :=
    [("issuance_date", .vD c.issuance_date),
     ("is_closed", .vB c.actual_return_date.isSome)]
  match c.actual_return_date with
  | some ard =>
      base ++
        [("actual_return_date", .vD ard),
         ("body", .vI c.body),
         ("percent", .vQ c.percent),
         ("total_payments", .vQ (get_total_payments db c.id))]
  | none =>
      base ++
        [("return_date", .vD c.return_date),
         ("overdue_days", .vI (calculate_overdue_days today c.return_date)),
         ("body", .vI c.body),
         ("percent", .vQ c.percent),
         ("body_payments", .vQ (get_total_payment_by_type db c.id "body")),
         ("percent_payments", .vQ (get_total_payment_by_type db c.id "percent"))]

/-- `get_user_credits`: 404 when the user has no credits, else the list of
per-credit records. -/
def get_user_credits (today : Date) (db : DB) (user_id : Int) :
    DB × Except HTTPError (List Rec) :=
  let credits := get_credits_by_user_id db user_id
  if credits.isEmpty then (db, .error ⟨404, "User or credits not found"⟩)
  else (db, .ok (credits.map (credit_record today db)))

/-! ## Helper lemmas about the `plans_insert` loop -/

/-- A row that fails some check aborts the loop with that check's error. -/
lemma insertRows_cons_err {db : DB} {idx : Nat} {r : Row} {e : HTTPError}
    (staged : List Plan) (rest : List Row) (h : rowError db idx r = some e) :
    insertRows db idx staged (r :: rest) = .error e := by
  obtain ⟨rp, rs, rc⟩ := r
  cases rp with
  | none => simp [rowError] at h; simp [insertRows, h]
  | some p =>
    by_cases hd : p.day = 1
    · cases rs with
      | none =>
        simp [rowError, hd] at h
        simp [insertRows, hd, h]
      | some s =>
        cases rc with
        | none =>
          simp [rowError, hd] at h
          simp [insertRows, hd, h]
        | some c =>
          by_cases hdup : (get_existing_plan db p c).isSome
          · simp [rowError, hd, hdup] at h
            simp [insertRows, hd, hdup, h]
          · simp [rowError, hd, hdup] at h
    · simp [rowError, hd] at h
      simp [insertRows, hd, h]

/-- A row that passes every check contributes one staged plan and the loop
continues. -/
lemma insertRows_cons_ok {db : DB} {idx : Nat} {r : Row} {p : Date} {s : ℚ} {c : Int}
    (staged : List Plan) (rest : List Row)
    (hp : r.period = some p) (hd : p.day = 1) (hs : r.sum = some s)
    (hc : r.category_id = some c) (hdup : get_existing_plan db p c = none) :
    insertRows db idx staged (r :: rest) =
      insertRows db (idx + 1) (staged ++ [create_plan p (int_of s) c]) rest := by
  obtain ⟨rp, rs, rc⟩ := r
  simp only [Row.period] at hp
  simp only [Row.sum] at hs
  simp only [Row.category_id] at hc
  subst hp hs hc
  simp [insertRows, hd, hdup]

/-- A passing row exposes the cell values the loop body consumed. -/
lemma rowError_none_shape {db : DB} {idx : Nat} {r : Row}
    (h : rowError db idx r = none) :
    ∃ p s c, r.period = some p ∧ p.day = 1 ∧ r.sum = some s ∧
      r.category_id = some c ∧ get_existing_plan db p c = none := by
  obtain ⟨rp, rs, rc⟩ := r
  cases rp with
  | none => simp [rowError] at h
  | some p =>
    by_cases hd : p.day = 1
    · cases rs with
      | none => simp [rowError, hd] at h
      | some s =>
        cases rc with
        | none => simp [rowError, hd] at h
        | some c =>
          by_cases hdup : (get_existing_plan db p c).isSome
          · simp [rowError, hd, hdup] at h
          · exact ⟨p, s, c, rfl, hd, rfl, rfl, Option.not_isSome_iff_eq_none.mp hdup⟩
    · simp [rowError, hd] at h

/-- A passing row stages exactly the plan `rowPlan` describes. -/
lemma rowPlan_of_rowError_none {db : DB} {idx : Nat} {r : Row}
    (h : rowError db idx r = none) :
    ∃ p s c, r.period = some p ∧ rowPlan r = some (create_plan p (int_of s) c) ∧
      r.sum = some s ∧ r.category_id = some c := by
  obtain ⟨p, s, c, hp, _, hs, hc, _⟩ := rowError_none_shape h
  exact ⟨p, s, c, hp, by simp [rowPlan, hp, hs, hc], hs, hc⟩

/-- If every row passes, the loop succeeds and stages `rowPlan` of each
row, in order. -/
lemma insertRows_ok_of_all_pass {db : DB} :
    ∀ (rows : List Row) (idx : Nat) (staged : List Plan),
      (∀ j (hj : j < rows.length), rowError db (idx + j) (rows.get ⟨j, hj⟩) = none) →
      insertRows db idx staged rows = .ok (staged ++ rows.filterMap rowPlan) := by
  intro rows
  induction rows with
  | nil => intro idx staged _; simp [insertRows]
  | cons r rest ih =>
    intro idx staged h
    have h0 : rowError db idx r = none := by simpa using h 0 (by simp)
    obtain ⟨p, s, c, hp, hd, hs, hc, hdup⟩ := rowError_none_shape h0
    rw [insertRows_cons_ok staged rest hp hd hs hc hdup]
    rw [ih (idx + 1) (staged ++ [create_plan p (int_of s) c]) ?_]
    · simp [List.filterMap_cons, rowPlan, hp, hs, hc]
    · intro j hj
      have e : idx + 1 + j = idx + (j + 1) := by omega
      rw [e]
      exact h (j + 1) (by simpa using Nat.succ_lt_succ hj)

/-- If the loop succeeds, every row passed its checks. -/
lemma all_pass_of_insertRows_ok {db : DB} :
    ∀ (rows : List Row) (idx : Nat) (staged res : List Plan),
      insertRows db idx staged rows = .ok res →
      ∀ j (hj : j < rows.length), rowError db (idx + j) (rows.get ⟨j, hj⟩) = none := by
  intro rows
  induction rows with
  | nil => intro idx staged res _ j hj; simp at hj
  | cons r rest ih =>
    intro idx staged res hok j hj
    have h0 : rowError db idx r = none := by
      cases hre : rowError db idx r with
      | none => rfl
      | some e => rw [insertRows_cons_err staged rest hre] at hok; simp at hok
    obtain ⟨p, s, c, hp, hd, hs, hc, hdup⟩ := rowError_none_shape h0
    rw [insertRows_cons_ok staged rest hp hd hs hc hdup] at hok
    cases j with
    | zero => simpa using h0
    | succ j =>
      have e : idx + (j + 1) = idx + 1 + j := by omega
      rw [e]
      exact ih (idx + 1) _ res hok j (by simpa using Nat.lt_of_succ_lt_succ hj)

/-- If the first failing row is row `i` (0-based), the loop aborts with
row `i`'s error. -/
lemma insertRows_error_at_first_fail {db : DB} :
    ∀ (rows : List Row) (idx : Nat) (staged : List Plan) (i : Nat)
      (hi : i < rows.length) (e : HTTPError),
      (∀ j (hj : j < i), rowError db (idx + j) (rows.get ⟨j, by omega⟩) = none) →
      rowError db (idx + i) (rows.get ⟨i, hi⟩) = some e →
      insertRows db idx staged rows = .error e := by
  intro rows
  induction rows with
  | nil => intro idx staged i hi; simp at hi
  | cons r rest ih =>
    intro idx staged i hi e hprev hfail
    cases i with
    | zero => exact insertRows_cons_err staged rest (by simpa using hfail)
    | succ i =>
      have h0 : rowError db idx r = none := by simpa using hprev 0 (by omega)
      obtain ⟨p, s, c, hp, hd, hs, hc, hdup⟩ := rowError_none_shape h0
      rw [insertRows_cons_ok staged rest hp hd hs hc hdup]
      refine ih (idx + 1) _ i (by simpa using Nat.lt_of_succ_lt_succ hi) e ?_ ?_
      · intro j hj
        have e' : idx + 1 + j = idx + (j + 1) := by omega
        rw [e']
        exact hprev (j + 1) (by omega)
      · have e' : idx + 1 + i = idx + (i + 1) := by omega
        rw [e']
        exact hfail

/-! ## Claim theorems -/

/-- C7: for every credit, overdue days equals
`max(0, today − return_date)` in whole days: it is never negative, and it
is `0` exactly when the return date is on or after today (dates compare as
their civil day numbers). -/
theorem C7_overdue_days_clamped (today return_date : Date) :
    calculate_overdue_days today return_date =
      max (today.toDays - return_date.toDays) 0 ∧
    0 ≤ calculate_overdue_days today return_date ∧
    (calculate_overdue_days today return_date = 0 ↔
      today.toDays ≤ return_date.toDays) := by
  refine ⟨rfl, le_max_right _ _, ?_⟩
  rw [calculate_overdue_days, max_eq_right_iff, sub_nonpos]

/-- C8: `year_performance` accepts a year iff it lies in
`[2000, current_year + 1]`; outside that range it raises a 400 error and
no report is produced. -/
theorem C8_year_range (today : Date) (db : DB) (year : Int) :
    ((∃ out, (year_performance today db year).2 = .ok out) ↔
      (2000 ≤ year ∧ year ≤ today.year + 1)) ∧
    ((year < 2000 ∨ today.year + 1 < year) →
      ∃ e, (year_performance today db year).2 = .error e ∧ e.status = 400) := by
  by_cases h : year < 2000 ∨ year > today.year + 1
  · constructor
    · simp only [year_performance, if_pos h]
      constructor
      · rintro ⟨out, hout⟩; simp at hout
      · intro hrange; omega
    · intro _
      simp only [year_performance, if_pos h]
      exact ⟨_, rfl, rfl⟩
  · constructor
    · simp only [year_performance, if_neg h]
      constructor
      · intro _; omega
      · intro _; exact ⟨_, rfl⟩
    · intro hout; omega

/-- C8 witness: year 2024 is accepted when today is 2025-10-12, and year
1999 is rejected with a 400 error. -/
theorem C8_year_range_witness :
    (∃ out, (year_performance ⟨2025, 10, 12⟩ ⟨[], [], [], []⟩ 2024).2 = .ok out) ∧
    (∃ e, (year_performance ⟨2025, 10, 12⟩ ⟨[], [], [], []⟩ 1999).2 = .error e ∧
      e.status = 400) :=
  ⟨(C8_year_range ⟨2025, 10, 12⟩ ⟨[], [], [], []⟩ 2024).1.mpr (by norm_num),
   (C8_year_range ⟨2025, 10, 12⟩ ⟨[], [], [], []⟩ 1999).2 (by norm_num)⟩

/-- C9: the two read operations return the store unchanged on every path:
neither `get_user_credits` nor `year_performance` stages or commits any
write. -/
theorem C9_reads_leave_store_unchanged (today : Date) (db : DB)
    (user_id year : Int) :
    (get_user_credits today db user_id).1 = db ∧
    (year_performance today db year).1 = db := by
  constructor
  · by_cases h : (get_credits_by_user_id db user_id).isEmpty <;>
      simp [get_user_credits, h]
  · by_cases h : year < 2000 ∨ year > today.year + 1 <;>
      simp [year_performance, h]

/-- Every row-level error message carries the row's 1-based index. -/
lemma rowError_detail_shape {db : DB} {idx : Nat} {r : Row} {e : HTTPError}
    (h : rowError db idx r = some e) :
    ∃ a b, e.detail = a ++ toString (idx + 1) ++ b := by
  obtain ⟨rp, rs, rc⟩ := r
  cases rp with
  | none =>
    simp [rowError] at h
    exact ⟨"Invalid date format in row ", "", by simp [← h, invalidDateErr]⟩
  | some p =>
    by_cases hd : p.day = 1
    · cases rs with
      | none =>
        simp [rowError, hd] at h
        exact ⟨"The \x27sum\x27 field in row ", " is empty", by simp [← h, emptySumErr]⟩
      | some s =>
        cases rc with
        | none =>
          simp [rowError, hd] at h
          exact ⟨"Invalid category_id in row ", "", by simp [← h, invalidCategoryErr]⟩
        | some c =>
          by_cases hdup : (get_existing_plan db p c).isSome
          · simp [rowError, hd, hdup] at h
            exact ⟨"A plan for period " ++ p.toIso ++ " and category " ++ toString c ++
                " already exists (row ", ")",
              by simp [← h, duplicatePlanErr, String.append_assoc]⟩
          · simp [rowError, hd, hdup] at h
    · simp [rowError, hd] at h
      exact ⟨"Date in row ", " must be the first day of the month",
        by simp [← h, notFirstDayErr]⟩

/-- C2: plan upload is atomic — if any row of the batch fails a validation
check, the operation raises and the store is unchanged (no row of the
batch, earlier or later, is persisted); if every row passes, the whole
batch is committed at the end. -/
theorem C2_upload_atomic (db : DB) (rows : List Row) :
    ((∃ i, ∃ hi : i < rows.length, rowError db i (rows.get ⟨i, hi⟩) ≠ none) →
      ∃ e, plans_insert db rows = (db, .error e)) ∧
    ((∀ i (hi : i < rows.length), rowError db i (rows.get ⟨i, hi⟩) = none) →
      plans_insert db rows =
        ({ db with plans := db.plans ++ rows.filterMap rowPlan },
          .ok "Plans were successfully inserted into the database.")) := by
  constructor
  · rintro ⟨i, hi, hne⟩
    cases hins : insertRows db 0 [] rows with
    | error e => exact ⟨e, by simp [plans_insert, hins]⟩
    | ok res =>
      have hall := all_pass_of_insertRows_ok rows 0 [] res hins i hi
      rw [Nat.zero_add] at hall
      exact absurd hall hne
  · intro h
    have hok : insertRows db 0 [] rows = .ok ([] ++ rows.filterMap rowPlan) := by
      refine insertRows_ok_of_all_pass rows 0 [] ?_
      intro j hj
      rw [Nat.zero_add]
      exact h j hj
    simp only [List.nil_append] at hok
    simp [plans_insert, hok]

/-- C2 witness: a two-row batch whose second row has period 2024-02-15
(not a month start) is rejected and the (empty) store stays empty. -/
theorem C2_upload_atomic_witness :
    ∃ e, plans_insert ⟨[], [], [], []⟩
        [⟨some ⟨2024, 1, 1⟩, some 100, some 5⟩, ⟨some ⟨2024, 2, 15⟩, some 200, some 5⟩] =
      (⟨[], [], [], []⟩, .error e) :=
  (C2_upload_atomic ⟨[], [], [], []⟩
      [⟨some ⟨2024, 1, 1⟩, some 100, some 5⟩, ⟨some ⟨2024, 2, 15⟩, some 200, some 5⟩]).1
    ⟨1, by norm_num, by decide⟩

/-- C3: plan-upload validation is row-order sequential and fails fast — if
the rows before row `i` all pass (the five checks running in source order:
date parse, first-of-month, non-null sum, integer category, duplicate) and
row `i` fails, the batch aborts with exactly row `i`'s error, whose
message contains the 1-based row number `i + 1`. -/
theorem C3_fail_fast_in_order (db : DB) (rows : List Row) (i : Nat)
    (hi : i < rows.length) (e : HTTPError)
    (hprev : ∀ j (hj : j < i), rowError db j (rows.get ⟨j, by omega⟩) = none)
    (hfail : rowError db i (rows.get ⟨i, hi⟩) = some e) :
    (plans_insert db rows).2 = .error e ∧
    ∃ a b, e.detail = a ++ toString (i + 1) ++ b := by
  constructor
  · have herr : insertRows db 0 [] rows = .error e := by
      refine insertRows_error_at_first_fail rows 0 [] i hi e ?_ ?_
      · intro j hj
        rw [Nat.zero_add]
        exact hprev j hj
      · rw [Nat.zero_add]
        exact hfail
    simp [plans_insert, herr]
  · exact rowError_detail_shape hfail

/-- C3 witness: a batch whose first row has an unparsable period is
rejected with the date error citing row 1. -/
theorem C3_fail_fast_in_order_witness :
    (plans_insert ⟨[], [], [], []⟩ [⟨none, some 100, some 5⟩]).2 =
      .error ⟨400, "Invalid date format in row 1"⟩ ∧
    ∃ a b, HTTPError.detail ⟨400, "Invalid date format in row 1"⟩ =
      a ++ toString (0 + 1) ++ b :=
  C3_fail_fast_in_order ⟨[], [], [], []⟩ [⟨none, some 100, some 5⟩] 0 (by norm_num)
    ⟨400, "Invalid date format in row 1"⟩
    (fun j hj => absurd hj (Nat.not_lt_zero j)) (by decide)

/-- C1: the duplicate check sees only the store at validation time, never
rows staged earlier in the same batch — two rows of one batch with the
same `(period, category_id)`, for which no plan exists beforehand, both
pass validation, and a successful upload leaves two plans with that
`(period, category_id)` in the store. -/
theorem C1_intra_batch_duplicates (db : DB) (l1 l2 l3 : List Row) (r1 r2 : Row)
    (p : Date) (s1 s2 : ℚ) (c : Int)
    (h1p : r1.period = some p) (hd : p.day = 1) (h1s : r1.sum = some s1)
    (h1c : r1.category_id = some c)
    (h2p : r2.period = some p) (h2s : r2.sum = some s2) (h2c : r2.category_id = some c)
    (hdup : get_existing_plan db p c = none) :
    (∀ idx, rowError db idx r1 = none ∧ rowError db idx r2 = none) ∧
    (∀ db2 m, plans_insert db (l1 ++ r1 :: l2 ++ r2 :: l3) = (db2, .ok m) →
      2 ≤ db2.plans.countP (fun pl => pl.period == p && pl.category_id == c)) := by
  obtain ⟨r1p, r1s, r1c⟩ := r1
  obtain ⟨r2p, r2s, r2c⟩ := r2
  simp only [Row.period, Row.sum, Row.category_id] at h1p h1s h1c h2p h2s h2c
  subst h1p h1s h1c h2p h2s h2c
  constructor
  · intro idx
    constructor <;> simp [rowError, hd, hdup]
  · intro db2 m hok
    unfold plans_insert at hok
    cases hins : insertRows db 0 []
        (l1 ++ ⟨some p, some s1, some c⟩ :: l2 ++ ⟨some p, some s2, some c⟩ :: l3) with
    | error e => rw [hins] at hok; simp at hok
    | ok staged =>
      rw [hins] at hok
      have hall := all_pass_of_insertRows_ok _ 0 [] staged hins
      have hval := insertRows_ok_of_all_pass _ 0 [] hall
      rw [hins] at hval
      simp only [List.nil_append, Except.ok.injEq] at hval
      have hdb2 : ({ db with plans := db.plans ++ staged } : DB) = db2 :=
        congrArg Prod.fst hok
      rw [← hdb2, hval]
      simp only [List.filterMap_append, List.filterMap_cons, rowPlan, List.countP_append,
        List.countP_cons]
      simp [create_plan]
      omega


/-- C1 witness: uploading the same row twice into an empty store
succeeds and leaves two plans for (2024-01-01, 5). -/
theorem C1_intra_batch_duplicates_witness :
    2 <= (DB.plans
        (plans_insert ((⟨[], [], [], []⟩ : DB))
          [⟨some ⟨2024, 1, 1⟩, some 100, some 5⟩,
           ⟨some ⟨2024, 1, 1⟩, some 100, some 5⟩]).1).countP
      (fun pl => pl.period == (⟨2024, 1, 1⟩ : Date) && pl.category_id == 5) := by
  refine (C1_intra_batch_duplicates (⟨[], [], [], []⟩ : DB) [] [] []
      (⟨some ⟨2024, 1, 1⟩, some 100, some 5⟩ : Row)
      (⟨some ⟨2024, 1, 1⟩, some 100, some 5⟩ : Row)
      (⟨2024, 1, 1⟩ : Date) 100 100 5 rfl rfl rfl rfl rfl rfl rfl rfl).2
    (plans_insert (⟨[], [], [], []⟩ : DB)
      [⟨some ⟨2024, 1, 1⟩, some 100, some 5⟩,
       ⟨some ⟨2024, 1, 1⟩, some 100, some 5⟩]).1
    "Plans were successfully inserted into the database." (by rfl)

/-- C10: a row passing validation is persisted with its sum truncated to
an integer by `int(row["sum"])` — a fractional sum is not rejected, and
the stored plan carries `int_of s`, not `s`. -/
theorem C10_sum_truncated (db : DB) (idx : Nat) (r : Row) (p : Date) (s : ℚ) (c : Int)
    (hp : r.period = some p) (hd : p.day = 1) (hs : r.sum = some s)
    (hc : r.category_id = some c) (hdup : get_existing_plan db p c = none) :
    rowError db idx r = none ∧
    rowPlan r = some (create_plan p (int_of s) c) ∧
    plans_insert db [r] =
      ({ db with plans := db.plans ++ [create_plan p (int_of s) c] },
        .ok "Plans were successfully inserted into the database.") := by
  obtain ⟨rp, rs, rc⟩ := r
  simp only [Row.period] at hp
  simp only [Row.sum] at hs
  simp only [Row.category_id] at hc
  subst hp hs hc
  refine ⟨by simp [rowError, hd, hdup], by simp [rowPlan], ?_⟩
  simp [plans_insert, insertRows, hd, hdup]

/-- C10 witness: sum cell 10.5 passes validation and is stored as 10 —
not as 10.5. -/
theorem C10_sum_truncated_witness :
    (rowError ⟨[], [], [], []⟩ 0 ⟨some ⟨2024, 1, 1⟩, some (21/2 : ℚ), some 5⟩ = none ∧
      rowPlan ⟨some ⟨2024, 1, 1⟩, some (21/2 : ℚ), some 5⟩ =
        some (create_plan ⟨2024, 1, 1⟩ (int_of (21/2 : ℚ)) 5) ∧
      plans_insert ⟨[], [], [], []⟩ [⟨some ⟨2024, 1, 1⟩, some (21/2 : ℚ), some 5⟩] =
        (⟨[], [], [], [] ++ [create_plan ⟨2024, 1, 1⟩ (int_of (21/2 : ℚ)) 5]⟩,
          .ok "Plans were successfully inserted into the database.")) ∧
    int_of (21/2 : ℚ) = 10 ∧ (21/2 : ℚ) ≠ ((10 : Int) : ℚ) :=
  ⟨C10_sum_truncated ⟨[], [], [], []⟩ 0 ⟨some ⟨2024, 1, 1⟩, some (21/2 : ℚ), some 5⟩
      ⟨2024, 1, 1⟩ (21/2 : ℚ) 5 rfl rfl rfl rfl rfl,
    by norm_num [int_of], by norm_num⟩

/-- C6: dictionary-dependent aggregates degrade to zero — the per-type
payment total is `0` when the type name is absent from the dictionary or
the credit has no payments of that type, and the monthly plan sums for
issuance and collection are `0` when no dictionary entry or no plan row
matches. -/
theorem C6_aggregates_degrade_to_zero (db : DB) (credit_id : Int)
    (type_name : String) (year month : Int) :
    ((∀ d ∈ db.dictionary, d.name ≠ type_name) →
      get_total_payment_by_type db credit_id type_name = 0) ∧
    ((∀ p ∈ db.payments, ∀ d ∈ db.dictionary,
        d.name = type_name → ¬(p.credit_id = credit_id ∧ p.type_id = d.id)) →
      get_total_payment_by_type db credit_id type_name = 0) ∧
    ((∀ d ∈ db.dictionary, d.name ≠ "issuance") →
      get_plan_sum_issuance db year month = 0) ∧
    ((∀ pl ∈ db.plans, ¬(pl.period.year = year ∧ pl.period.month = month)) →
      get_plan_sum_issuance db year month = 0) ∧
    ((∀ d ∈ db.dictionary, d.name ≠ "collection") →
      get_plan_sum_for_payments db year month = 0) ∧
    ((∀ pl ∈ db.plans, ¬(pl.period.year = year ∧ pl.period.month = month)) →
      get_plan_sum_for_payments db year month = 0) := by
  refine ⟨?_, ?_, ?_, ?_, ?_, ?_⟩
  · intro h
    have hfil : db.dictionary.filter (fun d => d.name == type_name) = [] := by
      rw [List.filter_eq_nil_iff]
      intro d hd
      simpa using h d hd
    simp [get_total_payment_by_type, hfil]
  · intro h
    cases hh : (db.dictionary.filter (fun d => d.name == type_name)).head? with
    | none => simp [get_total_payment_by_type, hh]
    | some d =>
      have hdmem : d ∈ db.dictionary.filter (fun d => d.name == type_name) :=
        List.mem_of_mem_head? (by simp [hh])
      obtain ⟨hdict, hname⟩ := List.mem_filter.mp hdmem
      have hfil :
          db.payments.filter (fun p => p.credit_id == credit_id && p.type_id == d.id) = [] := by
        rw [List.filter_eq_nil_iff]
        intro p hp
        have := h p hp d hdict (by simpa using hname)
        simpa using this
      simp [get_total_payment_by_type, hh, hfil]
  · intro h
    have hfil : db.plans.filter (fun p =>
        p.period.year == year && p.period.month == month &&
          db.dictionary.any (fun d => d.id == p.category_id && d.name == "issuance")) = [] := by
      rw [List.filter_eq_nil_iff]
      intro pl _
      simp only [Bool.and_eq_true, beq_iff_eq, List.any_eq_true, not_and]
      rintro - ⟨d, hd, -, hnm⟩
      exact absurd hnm (h d hd)
    simp [get_plan_sum_issuance, hfil]
  · intro h
    have hfil : db.plans.filter (fun p =>
        p.period.year == year && p.period.month == month &&
          db.dictionary.any (fun d => d.id == p.category_id && d.name == "issuance")) = [] := by
      rw [List.filter_eq_nil_iff]
      intro pl hpl
      simp only [Bool.and_eq_true, beq_iff_eq, not_and]
      rintro ⟨hy, hm⟩ -
      exact h pl hpl ⟨hy, hm⟩
    simp [get_plan_sum_issuance, hfil]
  · intro h
    have hfil : db.plans.filter (fun p =>
        p.period.year == year && p.period.month == month &&
          db.dictionary.any (fun d => d.id == p.category_id && d.name == "collection")) = [] := by
      rw [List.filter_eq_nil_iff]
      intro pl _
      simp only [Bool.and_eq_true, beq_iff_eq, List.any_eq_true, not_and]
      rintro - ⟨d, hd, -, hnm⟩
      exact absurd hnm (h d hd)
    simp [get_plan_sum_for_payments, hfil]
  · intro h
    have hfil : db.plans.filter (fun p =>
        p.period.year == year && p.period.month == month &&
          db.dictionary.any (fun d => d.id == p.category_id && d.name == "collection")) = [] := by
      rw [List.filter_eq_nil_iff]
      intro pl hpl
      simp only [Bool.and_eq_true, beq_iff_eq, not_and]
      rintro ⟨hy, hm⟩ -
      exact h pl hpl ⟨hy, hm⟩
    simp [get_plan_sum_for_payments, hfil]

/-- C6 witness: with a payment present but an empty dictionary, the
per-type total for "body" and the monthly plan sums are all zero. -/
theorem C6_aggregates_degrade_to_zero_witness :
    get_total_payment_by_type
        ⟨[], [⟨1, 1, ⟨2024, 1, 5⟩, 7, 50⟩], [], [⟨⟨2024, 1, 1⟩, 100, 9⟩]⟩ 1 "body" = 0 ∧
    get_plan_sum_issuance
        ⟨[], [⟨1, 1, ⟨2024, 1, 5⟩, 7, 50⟩], [], [⟨⟨2024, 1, 1⟩, 100, 9⟩]⟩ 2024 1 = 0 :=
  ⟨(C6_aggregates_degrade_to_zero
        ⟨[], [⟨1, 1, ⟨2024, 1, 5⟩, 7, 50⟩], [], [⟨⟨2024, 1, 1⟩, 100, 9⟩]⟩ 1 "body" 2024 1).1
      (by simp),
    (C6_aggregates_degrade_to_zero
        ⟨[], [⟨1, 1, ⟨2024, 1, 5⟩, 7, 50⟩], [], [⟨⟨2024, 1, 1⟩, 100, 9⟩]⟩ 1 "body" 2024 1).2.2.1
      (by simp)⟩

/-- On an in-range year, `year_performance` returns the 12 month records
followed by the summary record. -/
lemma year_performance_ok (today : Date) (db : DB) (year : Int)
    (hrange : ¬(year < 2000 ∨ year > today.year + 1)) :
    (year_performance today db year).2 =
      .ok (((List.range 12).map (fun i => monthItem db year (Int.ofNat i + 1))).map
            (fun it => monthRecOf it
              ((((List.range 12).map (fun i => monthItem db year (Int.ofNat i + 1))).map
                  MonthItem.sum_issuances_for_month).sum)
              ((((List.range 12).map (fun i => monthItem db year (Int.ofNat i + 1))).map
                  MonthItem.sum_payments_for_month).sum)) ++
          [yearSummaryRec year
            ((List.range 12).map (fun i => monthItem db year (Int.ofNat i + 1)))]) := by
  simp only [year_performance, if_neg hrange]

/-- C4: for every year in the valid range the report has exactly 13
elements — the records for months 1..12 in increasing order followed by a
summary record that has no `"month"` key. -/
theorem C4_twelve_months_plus_summary (today : Date) (db : DB) (year : Int)
    (h1 : 2000 ≤ year) (h2 : year ≤ today.year + 1) :
    ∃ out, (year_performance today db year).2 = .ok out ∧
      out.length = 13 ∧
      (∀ i, i < 12 → out[i]?.bind (List.lookup "month") = some (.vI (Int.ofNat i + 1))) ∧
      (∃ r, out[12]? = some r ∧ r.lookup "month" = none) := by
  have hrange : ¬(year < 2000 ∨ year > today.year + 1) := by omega
  refine ⟨_, year_performance_ok today db year hrange, ?_, ?_, ?_⟩
  · simp
  · intro i hi
    rw [List.getElem?_append, if_pos (by simpa using hi)]
    rw [List.getElem?_map, List.getElem?_map]
    rw [show (List.range 12)[i]? = some i by simp [List.getElem?_range, hi]]
    simp [monthRecOf, monthItem, List.lookup]
  · refine ⟨yearSummaryRec year
      ((List.range 12).map (fun i => monthItem db year (Int.ofNat i + 1))), ?_, ?_⟩
    · rw [List.getElem?_append, if_neg (by simp)]
      simp
    · simp [yearSummaryRec, List.lookup]

/-- C4 witness: year 2024 on the empty store with today 2025-10-12. -/
theorem C4_twelve_months_plus_summary_witness :
    ∃ out, (year_performance ⟨2025, 10, 12⟩ ⟨[], [], [], []⟩ 2024).2 = .ok out ∧
      out.length = 13 ∧
      (∀ i, i < 12 → out[i]?.bind (List.lookup "month") = some (.vI (Int.ofNat i + 1))) ∧
      (∃ r, out[12]? = some r ∧ r.lookup "month" = none) :=
  C4_twelve_months_plus_summary ⟨2025, 10, 12⟩ ⟨[], [], [], []⟩ 2024
    (by norm_num) (by norm_num)

/-- The percent rendering at a positive denominator is the rounded ratio. -/
lemma pctStr_of_den_pos {den : ℚ} (num : ℚ) (h : 0 < den) :
    pctStr num den = fmtPercent (round2 (num / den * 100)) := by
  unfold pctStr
  rw [if_pos h.ne.symm]

/-- The percent rendering at denominator zero is the string `"0%"`. -/
lemma pctStr_den_zero (num : ℚ) : pctStr num 0 = "0%" := by
  have h0 : (if (0 : ℚ) ≠ 0 then num / 0 * 100 else 0) = 0 := by norm_num
  unfold pctStr
  rw [h0]
  have h1 : round2 0 = 0 := by norm_num [round2]
  rw [h1]
  rfl

/-- C5: every percent field of the report follows the single rule
"`round(num / den × 100, 2)` rendered with a percent suffix when the
denominator is positive, the string `0%` when it is zero"; with a zero
plan sum the ratio branch is never taken, so no division by zero occurs. -/
theorem C5_percent_fields (db : DB) (year month : Int)
    (items : List MonthItem) (it : MonthItem) (tsi : Int) (tsp num den : ℚ) :
    (0 < den → pctStr num den = fmtPercent (round2 (num / den * 100))) ∧
    (den = 0 → pctStr num den = "0%") ∧
    ((monthItem db year month).issuance_plan_percent =
      pctStr (get_issuances_for_month db year month : ℚ)
        (get_plan_sum_issuance db year month : ℚ)) ∧
    ((monthItem db year month).payment_plan_performance_percent =
      pctStr (get_sum_payments_for_month db year month)
        (get_plan_sum_for_payments db year month : ℚ)) ∧
    (get_plan_sum_issuance db year month = 0 →
      (monthItem db year month).issuance_plan_percent = "0%") ∧
    (get_plan_sum_for_payments db year month = 0 →
      (monthItem db year month).payment_plan_performance_percent = "0%") ∧
    ((monthRecOf it tsi tsp).lookup "sum_month_issuance_percent" =
      some (.vS (pctStr (it.sum_issuances_for_month : ℚ) (tsi : ℚ)))) ∧
    ((monthRecOf it tsi tsp).lookup "sum_month_payment_percent" =
      some (.vS (pctStr it.sum_payments_for_month tsp))) ∧
    ((yearSummaryRec year items).lookup "total_issuance_plan_percent" =
      some (.vS (pctStr ((items.map MonthItem.sum_issuances_for_month).sum : ℚ)
        ((items.map MonthItem.plan_sum_issuances).sum : ℚ)))) ∧
    ((yearSummaryRec year items).lookup "total_payment_plan_performance_percent" =
      some (.vS (pctStr (items.map MonthItem.sum_payments_for_month).sum
        ((items.map MonthItem.plan_sum_for_payments).sum : ℚ)))) := by
  refine ⟨fun h => pctStr_of_den_pos num h, fun h => h ▸ pctStr_den_zero num,
    rfl, rfl, ?_, ?_, ?_, ?_, ?_, ?_⟩
  · intro h
    show pctStr (get_issuances_for_month db year month : ℚ)
        (get_plan_sum_issuance db year month : ℚ) = "0%"
    rw [h]
    exact_mod_cast pctStr_den_zero _
  · intro h
    show pctStr (get_sum_payments_for_month db year month)
        (get_plan_sum_for_payments db year month : ℚ) = "0%"
    rw [h]
    exact_mod_cast pctStr_den_zero _
  · simp [monthRecOf, List.lookup]
  · simp [monthRecOf, List.lookup]
  · simp [yearSummaryRec, List.lookup]
  · simp [yearSummaryRec, List.lookup]

/-- C5 witness: at denominator 4 the field is the rounded ratio; at
denominator 0 it is `"0%"`, as on the empty store. -/
theorem C5_percent_fields_witness :
    pctStr 5 4 = fmtPercent (round2 (5 / 4 * 100)) ∧
    pctStr 5 0 = "0%" ∧
    (monthItem ⟨[], [], [], []⟩ 2024 3).issuance_plan_percent = "0%" :=
  ⟨(C5_percent_fields ⟨[], [], [], []⟩ 2024 3 [] ⟨1, 2024, 0, 0, 0, "", 0, 0, 0, ""⟩ 0 0 5 4).1 (by norm_num),
   (C5_percent_fields ⟨[], [], [], []⟩ 2024 3 [] ⟨1, 2024, 0, 0, 0, "", 0, 0, 0, ""⟩ 0 0 5 0).2.1 rfl,
   (C5_percent_fields ⟨[], [], [], []⟩ 2024 3 [] ⟨1, 2024, 0, 0, 0, "", 0, 0, 0, ""⟩ 0 0 5 4).2.2.2.2.1 (by decide)⟩

end CreditApp
